import Mathlib

/-!
Verification of the KYC identity-verification core: MRZ text parsing
(`parseOCRText`), the face-match decision rule (`compareFaces`), and the
blink-counting liveness state machine (`tick` from the LivenessBlink
detection loop).  JavaScript strings are embedded as `List Char`,
timestamps as `Nat` milliseconds, descriptors as `List ℝ`.
-/

namespace KYC

/-- Character class `[A-Z0-9<]` used by the MRZ line filter and normalizer. -/
def mrzAlphabet (c : Char) : Bool :=
  (decide ('A' ≤ c) && decide (c ≤ 'Z')) ||
  (decide ('0' ≤ c) && decide (c ≤ '9')) ||
  decide (c = '<')

/-- Character class `[0-9]` (JavaScript `\d`). -/
def isDigitChar (c : Char) : Bool :=
  decide ('0' ≤ c) && decide (c ≤ '9')

/-- Character class `[A-Z]`. -/
def isUpper (c : Char) : Bool :=
  decide ('A' ≤ c) && decide (c ≤ 'Z')

/-- Whitespace stripped by JavaScript `String.prototype.trim` (ASCII part). -/
def isJsWs (c : Char) : Bool :=
  decide (c = ' ') || decide (c = '\t') || decide (c = '\n') ||
  decide (c = '\r') || decide (c = '\x0b') || decide (c = '\x0c')

/-- `line.trim()`: drop leading and trailing whitespace. -/
def jsTrim (s : List Char) : List Char :=
  ((s.dropWhile isJsWs).reverse.dropWhile isJsWs).reverse

/-- `text.split(/\n|\r/)`: split at every `\n` or `\r`, keeping empty pieces. -/
def splitNewlines : List Char → List (List Char)
  | [] => [[]]
  | c :: rest =>
    if c = '\n' || c = '\r' then
      [] :: splitNewlines rest
    else
      match splitNewlines rest with
      | [] => [[c]]
      | p :: ps => (c :: p) :: ps

/--
MRZ line normalization (faceHelper.ts, `mrzLines.map` body): strip characters
outside `[A-Z0-9<]`, truncate to 30 with `substring(0, 30)`, then right-pad
with `<` to exactly 30.
-/
def normalizeLine (line : List Char) : List Char :=
  let cleaned := line.filter mrzAlphabet
  let truncated := cleaned.take 30
  truncated ++ List.replicate (30 - truncated.length) '<'

/--
Candidate MRZ line selection (faceHelper.ts): split on line boundaries, trim,
keep lines with `length > 20` matching `/^[A-Z0-9<]{20,}$/`, take first 3.
-/
def mrzCandidateLines (t : List Char) : List (List Char) :=
  (((splitNewlines t).map jsTrim).filter
    (fun l => decide (l.length > 20) &&
      (decide (l.length ≥ 20) && l.all mrzAlphabet))).take 3

/-- The candidate lines after 30-character normalization. -/
def mrzNormalizedLines (t : List Char) : List (List Char) :=
  (mrzCandidateLines t).map normalizeLine

/--
`text.match(/([0-9]{11})/)`: leftmost run of 11 consecutive digits, or none.
-/
def findRun11 : List Char → Option (List Char)
  | [] => none
  | c :: rest =>
    if decide ((c :: rest).length ≥ 11) && ((c :: rest).take 11).all isDigitChar then
      some ((c :: rest).take 11)
    else
      findRun11 rest

/--
Result record of `parseOCRText` (store type `OCRResults`): optional name,
surname, national ID (`tcNo`), plus the raw OCR text.
-/
structure OCRResults where
  name : Option (List Char)
  surname : Option (List Char)
  tcNo : Option (List Char)
  rawText : List Char
deriving DecidableEq

/-- The initial `parsedData` value: all fields undefined, `rawText` set. -/
def initialResults (t : List Char) : OCRResults :=
  ⟨none, none, none, t⟩

/--
Field record produced by the external `mrz` package (`mrzResult.fields`,
accessed as `Record<string, string | null>`); `none` models `null`/absent.
-/
structure MRZFields where
  givenNames : Option (List Char)
  surname : Option (List Char)
  personalNumber : Option (List Char)
  optionalData : Option (List Char)
  documentNumber : Option (List Char)
deriving DecidableEq

/--
Outcome of calling the external structured parser `parse(mrzLines)`:
it throws (`err`) or yields a possibly-falsy `fields` record.
-/
inductive MRZOutcome where
  | err : MRZOutcome
  | ok : Option MRZFields → MRZOutcome

/-- The external structured MRZ parse step, abstracted as a function. -/
abbrev MRZParseFn := List (List Char) → MRZOutcome

/-- JavaScript truthiness of a `string | null` value: `null` and `""` are falsy. -/
def optTruthy : Option (List Char) → Bool
  | none => false
  | some s => !s.isEmpty

/-- JavaScript falsiness test `!parsedData.field` on an optional string field. -/
def optFalsy (o : Option (List Char)) : Bool :=
  !optTruthy o

/--
One national-ID candidate from a structured field (faceHelper.ts): if the
field is truthy, strip `<` and accept when `length === 11 && /^\d+$/` holds.
-/
def tcCandidate (o : Option (List Char)) : Option (List Char) :=
  if optTruthy o then
    let docNo := (o.getD []).filter (fun c => !decide (c = '<'))
    if decide (docNo.length = 11) &&
        (decide (docNo.length ≥ 1) && docNo.all isDigitChar) then
      some docNo
    else none
  else none

/--
Structured extraction (faceHelper.ts, the `if (mrzResult.fields)` block):
`name` is the first space-separated token of `givenNames`, `surname` is taken
verbatim, `tcNo` is the first valid candidate among `personalNumber`,
`optionalData`, `documentNumber`.
-/
def extractStructured (f : MRZFields) (d : OCRResults) : OCRResults :=
  let d1 :=
    if optTruthy f.givenNames then
      { d with name := some ((f.givenNames.getD []).takeWhile (fun c => !decide (c = ' '))) }
    else d
  let d2 :=
    if optTruthy f.surname then
      { d1 with surname := f.surname }
    else d1
  match (tcCandidate f.personalNumber).orElse
      (fun _ => (tcCandidate f.optionalData).orElse
        (fun _ => tcCandidate f.documentNumber)) with
  | some v => { d2 with tcNo := some v }
  | none => d2

/--
`line3.split(/<{2,}/)`: split at every maximal run of at least two `<`,
keeping empty pieces; `curr` is the reversed current piece, `cnt` the number
of pending consecutive `<` not yet classified.
-/
def splitFillerAux : List Char → List Char → Nat → List (List Char)
  | [], curr, cnt =>
    if cnt ≥ 2 then [curr.reverse, []]
    else [curr.reverse ++ List.replicate cnt '<']
  | c :: rest, curr, cnt =>
    if c = '<' then splitFillerAux rest curr (cnt + 1)
    else
      if cnt ≥ 2 then curr.reverse :: splitFillerAux rest [c] 0
      else splitFillerAux rest (c :: (List.replicate cnt '<' ++ curr)) 0

/-- `line3.split(/<{2,}/)` on a whole line. -/
def splitFiller (s : List Char) : List (List Char) :=
  splitFillerAux s [] 0

/-- `cleanLine3.match(/[A-Z]+/g)`: maximal runs of uppercase letters, in order. -/
def upperRunsAux : List Char → Option (List Char) → List (List Char)
  | [], none => []
  | [], some r => [r.reverse]
  | c :: rest, none =>
    if isUpper c then upperRunsAux rest (some [c])
    else upperRunsAux rest none
  | c :: rest, some r =>
    if isUpper c then upperRunsAux rest (some (c :: r))
    else r.reverse :: upperRunsAux rest none

/-- All maximal uppercase runs of a string (`match(/[A-Z]+/g) || []`). -/
def upperRuns (s : List Char) : List (List Char) :=
  upperRunsAux s none

/--
One iteration of the length-based fallback loop (faceHelper.ts): for a given
`surnameLen`, try `substring(0, surnameLen)` as surname and a leading
`[A-Z]{4,15}` match of the rest as given name, with the purity checks.
-/
def tryLen (clean : List Char) (surnameLen : Nat) : Option (List Char × List Char) :=
  if decide (clean.length > surnameLen + 4) then
    let potentialSurname := clean.take surnameLen
    let rest := clean.drop surnameLen
    let run := rest.takeWhile isUpper
    if decide (run.length ≥ 4) then
      let potentialName := run.take 15
      if (decide (potentialSurname.length ≥ 1) && potentialSurname.all isUpper) &&
          ((decide (potentialName.length ≥ 1) && potentialName.all isUpper) &&
            (decide (potentialSurname.length ≥ 4) && decide (potentialName.length ≥ 4))) then
        some (potentialSurname, potentialName)
      else none
    else none
  else none

/-- The `for (let surnameLen = 4; surnameLen <= 15; ...)` loop, first hit wins. -/
def lengthFallback (clean : List Char) : Option (List Char × List Char) :=
  (List.range' 4 12).findSome? (tryLen clean)

/--
Computation of the heuristic `parts` list for MRZ line 3 (faceHelper.ts):
filler-split parts, else the first two uppercase runs of length 4–15, else
the length-based sliding fallback.
-/
def heuristicParts (line3 : List Char) : List (List Char) :=
  let cleanLine3 := jsTrim (line3.filter (fun c => !decide (c = '<')))
  let parts0 := ((splitFiller line3).map jsTrim).filter (fun part => decide (part.length > 0))
  if decide (parts0.length < 2) && decide (cleanLine3.length > 0) then
    let seqs := upperRuns cleanLine3
    let parts1 :=
      if decide (seqs.length ≥ 2) then
        let firstSeq := (seqs.get? 0).getD []
        let secondSeq := (seqs.get? 1).getD []
        if (decide (firstSeq.length ≥ 4) && decide (firstSeq.length ≤ 15)) &&
            (decide (secondSeq.length ≥ 4) && decide (secondSeq.length ≤ 15)) then
          [firstSeq, secondSeq]
        else parts0
      else parts0
    if decide (parts1.length < 2) then
      match lengthFallback cleanLine3 with
      | some pr => [pr.1, pr.2]
      | none => parts1
    else parts1
  else parts0

/--
Surname assignment from heuristic parts (faceHelper.ts): leading
`[A-Z]{4,15}` match of the `<`-stripped part 1, else all letters of it when
4–15 of them remain; only when `surname` is still falsy.
-/
def assignSurname (parts : List (List Char)) (d : OCRResults) : OCRResults :=
  if decide (parts.length ≥ 1) && optFalsy d.surname then
    let surname := jsTrim (((parts.get? 0).getD []).filter (fun c => !decide (c = '<')))
    let run := surname.takeWhile isUpper
    if decide (run.length ≥ 4) then
      { d with surname := some (run.take 15) }
    else
      let cleaned := surname.filter isUpper
      if decide (cleaned.length ≥ 4) && decide (cleaned.length ≤ 15) then
        { d with surname := some cleaned }
      else d
  else d

/--
Given-name assignment from heuristic parts (faceHelper.ts): leading
`[A-Z]{4,15}` match of the `<`-stripped part 2; only when `name` is falsy.
-/
def assignName (parts : List (List Char)) (d : OCRResults) : OCRResults :=
  if decide (parts.length ≥ 2) && optFalsy d.name then
    let givenNames := jsTrim (((parts.get? 1).getD []).filter (fun c => !decide (c = '<')))
    let run := givenNames.takeWhile isUpper
    if decide (run.length ≥ 4) then
      let firstName := run.take 15
      if decide (firstName.length ≥ 4) then { d with name := some firstName }
      else d
    else d
  else d

/--
Heuristic manual fallback (faceHelper.ts): only when `name` or `surname` is
still falsy and at least 3 normalized lines exist; works on line 3.
-/
def applyHeuristic (lines : List (List Char)) (d : OCRResults) : OCRResults :=
  if (optFalsy d.name || optFalsy d.surname) && decide (lines.length ≥ 3) then
    let line3 := (lines.get? 2).getD []
    let parts := heuristicParts line3
    assignName parts (assignSurname parts d)
  else d

/--
The line-1 digit scan (faceHelper.ts, `else if (mrzLines.length >= 2)`
branch): scan normalized line 1 for an 11-digit run.
-/
def applyTcLine1 (lines : List (List Char)) (d : OCRResults) : OCRResults :=
  if decide (lines.length ≥ 2) then
    match findRun11 ((lines.get? 0).getD []) with
    | some r => { d with tcNo := some r }
    | none => d
  else d

/--
National-ID digit-scan fallback (faceHelper.ts): when `tcNo` is still falsy,
scan the raw text for an 11-digit run, else fall back to line 1.
-/
def applyTcFallback (t : List Char) (lines : List (List Char)) (d : OCRResults) : OCRResults :=
  if optFalsy d.tcNo then
    match findRun11 t with
    | some r => { d with tcNo := some r }
    | none => applyTcLine1 lines d
  else d

/--
The `catch` handler of `parseOCRText` (faceHelper.ts, lines 299–305): only
the raw-text 11-digit scan is applied to the untouched `parsedData`.
-/
def catchResult (t : List Char) : OCRResults :=
  match findRun11 t with
  | some r => { initialResults t with tcNo := some r }
  | none => initialResults t

/--
The structured-parse step applied to the initial record: extraction happens
only when `mrzResult.fields` is truthy.
-/
def structStep (ofields : Option MRZFields) (t : List Char) : OCRResults :=
  match ofields with
  | some f => extractStructured f (initialResults t)
  | none => initialResults t

/--
`parseOCRText` (faceHelper.ts): line selection and normalization, then — when
at least 2 normalized lines exist — the structured parse inside `try`,
followed (still inside `try`) by the heuristic fallback and the digit-scan
fallback; the `catch` handler applies only the raw-text digit scan.
-/
def parseOCRText (p : MRZParseFn) (t : List Char) : OCRResults :=
  if decide ((mrzNormalizedLines t).length ≥ 2) then
    match p (mrzNormalizedLines t) with
    | .err => catchResult t
    | .ok ofields =>
      applyTcFallback t (mrzNormalizedLines t)
        (applyHeuristic (mrzNormalizedLines t) (structStep ofields t))
  else initialResults t

/-- Output of `compareFaces` (faceComparisonHelper.ts): `{ isMatch, distance }`. -/
structure MatchResult where
  isMatch : Bool
  distance : ℝ

/--
`faceapi.euclideanDistance`: the Euclidean distance between two descriptors,
the square root of the sum of squared componentwise differences.
-/
noncomputable def euclideanDistance (d1 d2 : List ℝ) : ℝ :=
  Real.sqrt (((d1.zip d2).map (fun pr => (pr.1 - pr.2) ^ 2)).sum)

/--
The face-match decision rule (faceComparisonHelper.ts, lines 170–184):
`distance = euclideanDistance(...)`, `isMatch = distance < threshold`.
-/
noncomputable def compareFaces (d1 d2 : List ℝ) (threshold : ℝ) : MatchResult :=
  let distance := euclideanDistance d1 d2
  { isMatch := @decide (distance < threshold) (Classical.propDecidable _)
    distance := distance }

/-- Errors thrown by `compareFaces` when detection finds no face in an input. -/
inductive CompareError where
  | noFaceInID : CompareError
  | noFaceInSelfie : CompareError
deriving DecidableEq

/--
`compareFaces` including the two detection steps (faceComparisonHelper.ts,
lines 135–161): descriptor extraction may yield no face per image
(`none`); a missing face throws before any distance is computed.
-/
noncomputable def compareFacesChecked (det1 det2 : Option (List ℝ)) (threshold : ℝ) :
    Except CompareError MatchResult :=
  match det1 with
  | none => .error .noFaceInID
  | some d1 =>
    match det2 with
    | none => .error .noFaceInSelfie
    | some d2 => .ok (compareFaces d1 d2 threshold)

/-- The flow controller's step identifiers (`currentStep` in the store). -/
inductive FlowStep where
  | start | identityFront | identityBack | livenessFront | livenessBlink
deriving DecidableEq

/--
What the LivenessBlink caller does with one comparison outcome: next step,
blink count after handling, in-flight guard after handling, and whether
liveness was completed.
-/
structure AttemptOutcome where
  nextStep : FlowStep
  blinkCountAfter : Nat
  isComparingAfter : Bool
  livenessCompleted : Bool
deriving DecidableEq

/--
Handling of the face-comparison outcome in LivenessBlink (`detectBlink`
lines 125–158): a thrown error or a non-match resets the blink count and the
guard and returns to the selfie-capture step; a match completes liveness and
returns to the start step.
-/
def handleComparison (blinkCount : Nat) (r : Except CompareError MatchResult) :
    AttemptOutcome :=
  match r with
  | .error _ => ⟨.livenessFront, 0, false, false⟩
  | .ok m =>
    if m.isMatch then ⟨.start, blinkCount, true, true⟩
    else ⟨.livenessFront, 0, false, false⟩

/-- Liveness configuration: `REQUIRED_BLINKS` and `BLINK_DEBOUNCE_MS`. -/
structure LivenessConfig where
  requiredBlinks : Nat
  debounceMs : Nat
deriving DecidableEq

/-- Default configuration values from config/constants.ts. -/
def defaultLivenessConfig : LivenessConfig :=
  ⟨2, 400⟩

/--
One video frame as seen by the detection tick: whether a face is present,
whether the landmarks report closed eyes, and the `Date.now()` wall-clock
value (milliseconds) at processing time.
-/
structure Frame where
  faceDetected : Bool
  eyesClosed : Bool
  now : Nat
deriving DecidableEq

/--
The mutable refs of the LivenessBlink component plus the scheduling and
comparison-attempt bookkeeping: `wasBlinkingRef`, `lastBlinkTimeRef`,
`blinkCountRef`, `isComparingRef`, the number of face-match attempts started,
and whether a detection tick is scheduled (`animationFrameRef`).
-/
structure Session where
  wasBlinking : Bool
  lastBlinkTime : Nat
  blinkCount : Nat
  isComparing : Bool
  comparisons : Nat
  scheduled : Bool
deriving DecidableEq

/-- Session state at mount: counters zeroed, guard off, first tick scheduled. -/
def initSession : Session :=
  ⟨false, 0, 0, false, 0, true⟩

/--
`detectBlinkInFrame` (livenessHelper.ts): when no face is detected the frame
reports `{ faceDetected: false, blinkDetected: false }`; otherwise
`blinkDetected` is the eyes-closed signal.
-/
def frameResult (f : Frame) : Bool × Bool :=
  if f.faceDetected then (true, f.eyesClosed) else (false, false)

/--
One `detectBlink` tick (LivenessBlink component): skipped when no tick is
scheduled or a comparison is in flight; a blink is counted on the
closed-to-open edge of `blinkDetected` when `now - lastBlinkTime` strictly
exceeds the debounce window; reaching the required count sets the in-flight
guard, cancels the scheduled tick and starts one comparison, returning early
(so `wasBlinkingRef` is not updated on that path).
-/
def tick (cfg : LivenessConfig) (s : Session) (f : Frame) : Session :=
  if !s.scheduled || s.isComparing then s
  else
    let blinkDetected := (frameResult f).2
    if !blinkDetected && s.wasBlinking then
      if decide (f.now - s.lastBlinkTime > cfg.debounceMs) then
        let n := s.blinkCount + 1
        if decide (n ≥ cfg.requiredBlinks) && !s.isComparing then
          { s with lastBlinkTime := f.now, blinkCount := n,
                   isComparing := true, comparisons := s.comparisons + 1,
                   scheduled := false }
        else
          { s with wasBlinking := blinkDetected, lastBlinkTime := f.now,
                   blinkCount := n }
      else
        { s with wasBlinking := blinkDetected }
    else
      { s with wasBlinking := blinkDetected }

/-- Run the detection tick over a whole frame sequence. -/
def runBlink (cfg : LivenessConfig) (s : Session) (frames : List Frame) : Session :=
  frames.foldl (tick cfg) s

/--
A frame sequence with three well-spaced blinks (closed/open pairs at
1000/1500, 3000/3500, 5000/5500 ms), all with a face detected.
-/
def exBlinkFrames : List Frame :=
  [⟨true, true, 1000⟩, ⟨true, false, 1500⟩,
   ⟨true, true, 3000⟩, ⟨true, false, 3500⟩,
   ⟨true, true, 5000⟩, ⟨true, false, 5500⟩]

/-- A well-formed 30-character TD1 name line, used as a concrete fixture. -/
def exLine30 : List Char :=
  ("OZTURK<<AHMET<<<<<<<<<<<<<<<<<").data

/--
A concrete OCR text with three surviving candidate lines whose third line is
a TD1 name line; it contains no 11-digit run.
-/
def exThrowText : List Char :=
  ("AAAAAAAAAAAAAAAAAAAAA\nBBBBBBBBBBBBBBBBBBBBB\nOZTURK<<AHMET<<<<<<<<<").data

/-- A concrete OCR text with two candidate lines and an 11-digit run. -/
def exTcText : List Char :=
  ("AAAAAAAAAAAAAAAAAAAAA\nBBBBBBBBBB12345678901").data

/-- A structured-parse stub that always throws. -/
def throwingParse : MRZParseFn :=
  fun _ => MRZOutcome.err

/-- A structured-parse stub that returns a falsy fields record. -/
def emptyOkParse : MRZParseFn :=
  fun _ => MRZOutcome.ok none

/- ### Theorems -/

theorem normalizeLine_length (s : List Char) : (normalizeLine s).length = 30 := by
  unfold normalizeLine
  simp only [List.length_append, List.length_replicate, List.length_take]
  omega

theorem normalizeLine_all (s : List Char) :
    (normalizeLine s).all mrzAlphabet = true := by
  unfold normalizeLine
  simp only [List.all_append, Bool.and_eq_true, List.all_eq_true]
  refine ⟨fun c hc => ?_, fun c hc => ?_⟩
  · exact List.of_mem_filter (List.take_subset _ _ hc)
  · rw [List.eq_of_mem_replicate hc]; rfl

theorem normalizeLine_of_valid (s : List Char) (h30 : s.length = 30)
    (ha : s.all mrzAlphabet = true) : normalizeLine s = s := by
  have hf : s.filter mrzAlphabet = s :=
    List.filter_eq_self.mpr (List.all_eq_true.mp ha)
  have ht : s.take 30 = s := List.take_of_length_le (by omega)
  simp [normalizeLine, hf, ht, h30]

/--
C3: The MRZ line normalization step is total and idempotent: for every input
string it returns a string of exactly 30 characters drawn from
`{A-Z, 0-9, <}` (stripping other characters, truncating past 30,
right-padding with `<`), and for every input that is already a 30-character
string over that alphabet it returns the input unchanged (hence normalizing
twice equals normalizing once).
-/
theorem C3_normalization_total_idempotent (s : List Char) :
    (normalizeLine s).length = 30 ∧
    (normalizeLine s).all mrzAlphabet = true ∧
    (s.length = 30 → s.all mrzAlphabet = true → normalizeLine s = s) ∧
    normalizeLine (normalizeLine s) = normalizeLine s := by
  refine ⟨normalizeLine_length s, normalizeLine_all s,
    fun h30 ha => normalizeLine_of_valid s h30 ha, ?_⟩
  exact normalizeLine_of_valid _ (normalizeLine_length s) (normalizeLine_all s)

/-- Concrete instance of the C3 idempotence part on a well-formed 30-character line. -/
theorem C3_normalization_witness : normalizeLine exLine30 = exLine30 :=
  (C3_normalization_total_idempotent exLine30).2.2.1 (by decide) (by decide)

theorem findRun11_spec (s : List Char) (r : List Char) (h : findRun11 s = some r) :
    r.length = 11 ∧ r.all isDigitChar = true := by
  induction s with
  | nil => exact absurd h (by simp [findRun11])
  | cons c rest ih =>
    rw [findRun11] at h
    split at h
    · rename_i hc
      simp only [Bool.and_eq_true, decide_eq_true_eq] at hc
      cases h
      refine ⟨?_, hc.2⟩
      simp only [List.length_take]
      omega
    · exact ih h

theorem tcCandidate_spec (o : Option (List Char)) (v : List Char)
    (h : tcCandidate o = some v) : v.length = 11 ∧ v.all isDigitChar = true := by
  unfold tcCandidate at h
  split at h
  · dsimp only at h
    split at h
    · rename_i hc
      cases h
      simp only [Bool.and_eq_true, decide_eq_true_eq] at hc
      exact ⟨hc.1, hc.2.2⟩
    · exact absurd h (by simp)
  · exact absurd h (by simp)

theorem tcChain_spec (a b c : Option (List Char)) (v : List Char)
    (h : (tcCandidate a).orElse
      (fun _ => (tcCandidate b).orElse (fun _ => tcCandidate c)) = some v) :
    v.length = 11 ∧ v.all isDigitChar = true := by
  cases ha : tcCandidate a with
  | some w =>
    rw [ha] at h
    simp only [Option.orElse] at h
    injection h with h2
    subst h2
    exact tcCandidate_spec _ _ ha
  | none =>
    rw [ha] at h
    simp only [Option.orElse] at h
    cases hb : tcCandidate b with
    | some w =>
      rw [hb] at h
      simp only [Option.orElse] at h
      injection h with h2
      subst h2
      exact tcCandidate_spec _ _ hb
    | none =>
      rw [hb] at h
      simp only [Option.orElse] at h
      exact tcCandidate_spec c v h

theorem extractStructured_tcNo (f : MRZFields) (d : OCRResults) :
    (extractStructured f d).tcNo = d.tcNo ∨
    ∃ v, (extractStructured f d).tcNo = some v ∧
      v.length = 11 ∧ v.all isDigitChar = true := by
  unfold extractStructured
  cases h : (tcCandidate f.personalNumber).orElse
      (fun _ => (tcCandidate f.optionalData).orElse
        (fun _ => tcCandidate f.documentNumber)) with
  | none =>
    left
    dsimp only
    split <;> split <;> rfl
  | some v =>
    right
    refine ⟨v, ?_, tcChain_spec _ _ _ _ h⟩
    dsimp only

theorem assignSurname_tcNo (parts : List (List Char)) (d : OCRResults) :
    (assignSurname parts d).tcNo = d.tcNo := by
  unfold assignSurname
  split
  · dsimp only
    split
    · rfl
    · split <;> rfl
  · rfl

theorem assignName_tcNo (parts : List (List Char)) (d : OCRResults) :
    (assignName parts d).tcNo = d.tcNo := by
  unfold assignName
  split
  · dsimp only
    split
    · split <;> rfl
    · rfl
  · rfl

theorem applyHeuristic_tcNo (lines : List (List Char)) (d : OCRResults) :
    (applyHeuristic lines d).tcNo = d.tcNo := by
  unfold applyHeuristic
  split
  · rw [assignName_tcNo, assignSurname_tcNo]
  · rfl

theorem applyTcLine1_tcNo (lines : List (List Char)) (d : OCRResults) :
    (applyTcLine1 lines d).tcNo = d.tcNo ∨
    ∃ v, (applyTcLine1 lines d).tcNo = some v ∧
      v.length = 11 ∧ v.all isDigitChar = true := by
  unfold applyTcLine1
  split
  · cases h1 : findRun11 ((lines.get? 0).getD []) with
    | some r =>
      right
      exact ⟨r, rfl, findRun11_spec _ r h1⟩
    | none => left; rfl
  · left; rfl

theorem applyTcFallback_tcNo (t : List Char) (lines : List (List Char)) (d : OCRResults) :
    (applyTcFallback t lines d).tcNo = d.tcNo ∨
    ∃ v, (applyTcFallback t lines d).tcNo = some v ∧
      v.length = 11 ∧ v.all isDigitChar = true := by
  unfold applyTcFallback
  split
  · cases h : findRun11 t with
    | some r =>
      right
      exact ⟨r, rfl, findRun11_spec t r h⟩
    | none =>
      exact applyTcLine1_tcNo lines d
  · left; rfl

theorem catchResult_tcNo (t : List Char) : (catchResult t).tcNo = findRun11 t := by
  unfold catchResult
  cases h : findRun11 t <;> rfl

theorem structStep_tcNo (ofields : Option MRZFields) (t : List Char) :
    (structStep ofields t).tcNo = none ∨
    ∃ v, (structStep ofields t).tcNo = some v ∧
      v.length = 11 ∧ v.all isDigitChar = true := by
  cases ofields with
  | none => left; rfl
  | some f =>
    rcases extractStructured_tcNo f (initialResults t) with h | h
    · left; exact h
    · right; exact h

/--
C1: For every input string, whenever the result of `parseOCRText` has a
defined `tcNo` field, that field is a string of exactly 11 characters, each
a decimal digit — on every extraction path (the structured `personalNumber`,
`optionalData` and `documentNumber` candidates, the raw-text digit scan, and
the line-1 digit scan), for every behaviour of the external structured
parser.
-/
theorem C1_tcNo_shape (p : MRZParseFn) (t : List Char) (s : List Char)
    (h : (parseOCRText p t).tcNo = some s) :
    s.length = 11 ∧ s.all isDigitChar = true := by
  unfold parseOCRText at h
  split at h
  · cases hp : p (mrzNormalizedLines t) with
    | err =>
      rw [hp] at h
      have h1 : (catchResult t).tcNo = some s := h
      rw [catchResult_tcNo] at h1
      exact findRun11_spec t s h1
    | ok ofields =>
      rw [hp] at h
      have h1 : (applyTcFallback t (mrzNormalizedLines t)
          (applyHeuristic (mrzNormalizedLines t) (structStep ofields t))).tcNo = some s := h
      rcases applyTcFallback_tcNo t (mrzNormalizedLines t)
          (applyHeuristic (mrzNormalizedLines t) (structStep ofields t)) with
        h2 | ⟨v, hv, hlen, hdig⟩
      · rw [h2, applyHeuristic_tcNo] at h1
        rcases structStep_tcNo ofields t with h3 | ⟨v, hv, hlen, hdig⟩
        · rw [h3] at h1
          exact Option.noConfusion h1
        · rw [hv] at h1
          cases h1
          exact ⟨hlen, hdig⟩
      · rw [hv] at h1
        cases h1
        exact ⟨hlen, hdig⟩
  · exact Option.noConfusion h

/--
Concrete instance of C1: a text whose second candidate line carries an
11-digit run yields that run as `tcNo`, and it is 11 digits.
-/
theorem C1_tcNo_shape_witness :
    ∃ s, (parseOCRText emptyOkParse exTcText).tcNo = some s ∧
      s.length = 11 ∧ s.all isDigitChar = true :=
  ⟨("12345678901").data, by decide,
    C1_tcNo_shape emptyOkParse exTcText (("12345678901").data) (by decide)⟩

theorem assignSurname_name (parts : List (List Char)) (d : OCRResults) :
    (assignSurname parts d).name = d.name := by
  unfold assignSurname
  split
  · dsimp only
    split
    · rfl
    · split <;> rfl
  · rfl

theorem assignSurname_rawText (parts : List (List Char)) (d : OCRResults) :
    (assignSurname parts d).rawText = d.rawText := by
  unfold assignSurname
  split
  · dsimp only
    split
    · rfl
    · split <;> rfl
  · rfl

theorem assignSurname_surname (parts : List (List Char)) (d : OCRResults) :
    (assignSurname parts d).surname = d.surname ∨
    ∃ v, (assignSurname parts d).surname = some v := by
  unfold assignSurname
  split
  · dsimp only
    split
    · right; exact ⟨_, rfl⟩
    · split
      · right; exact ⟨_, rfl⟩
      · left; rfl
  · left; rfl

theorem assignName_surname (parts : List (List Char)) (d : OCRResults) :
    (assignName parts d).surname = d.surname := by
  unfold assignName
  split
  · dsimp only
    split
    · split <;> rfl
    · rfl
  · rfl

theorem assignName_rawText (parts : List (List Char)) (d : OCRResults) :
    (assignName parts d).rawText = d.rawText := by
  unfold assignName
  split
  · dsimp only
    split
    · split <;> rfl
    · rfl
  · rfl

theorem assignName_name (parts : List (List Char)) (d : OCRResults) :
    (assignName parts d).name = d.name ∨
    ∃ v, (assignName parts d).name = some v := by
  unfold assignName
  split
  · dsimp only
    split
    · split
      · right; exact ⟨_, rfl⟩
      · left; rfl
    · left; rfl
  · left; rfl

theorem applyHeuristic_name_isSome (lines : List (List Char)) (d : OCRResults)
    (h : d.name.isSome = true) : (applyHeuristic lines d).name.isSome = true := by
  unfold applyHeuristic
  split
  · rcases assignName_name (heuristicParts ((lines.get? 2).getD []))
        (assignSurname (heuristicParts ((lines.get? 2).getD [])) d) with h1 | ⟨v, hv⟩
    · rw [h1, assignSurname_name]
      exact h
    · rw [hv]
      rfl
  · exact h

theorem applyHeuristic_surname_isSome (lines : List (List Char)) (d : OCRResults)
    (h : d.surname.isSome = true) : (applyHeuristic lines d).surname.isSome = true := by
  unfold applyHeuristic
  split
  · rw [assignName_surname]
    rcases assignSurname_surname (heuristicParts ((lines.get? 2).getD [])) d with h1 | ⟨v, hv⟩
    · rw [h1]; exact h
    · rw [hv]; rfl
  · exact h

theorem applyHeuristic_rawText (lines : List (List Char)) (d : OCRResults) :
    (applyHeuristic lines d).rawText = d.rawText := by
  unfold applyHeuristic
  split
  · rw [assignName_rawText, assignSurname_rawText]
  · rfl

theorem applyTcLine1_name (lines : List (List Char)) (d : OCRResults) :
    (applyTcLine1 lines d).name = d.name := by
  unfold applyTcLine1
  split
  · cases findRun11 ((lines.get? 0).getD []) <;> rfl
  · rfl

theorem applyTcLine1_surname (lines : List (List Char)) (d : OCRResults) :
    (applyTcLine1 lines d).surname = d.surname := by
  unfold applyTcLine1
  split
  · cases findRun11 ((lines.get? 0).getD []) <;> rfl
  · rfl

theorem applyTcLine1_rawText (lines : List (List Char)) (d : OCRResults) :
    (applyTcLine1 lines d).rawText = d.rawText := by
  unfold applyTcLine1
  split
  · cases findRun11 ((lines.get? 0).getD []) <;> rfl
  · rfl

theorem applyTcFallback_name (t : List Char) (lines : List (List Char)) (d : OCRResults) :
    (applyTcFallback t lines d).name = d.name := by
  unfold applyTcFallback
  split
  · cases findRun11 t with
    | some r => rfl
    | none => exact applyTcLine1_name lines d
  · rfl

theorem applyTcFallback_surname (t : List Char) (lines : List (List Char)) (d : OCRResults) :
    (applyTcFallback t lines d).surname = d.surname := by
  unfold applyTcFallback
  split
  · cases findRun11 t with
    | some r => rfl
    | none => exact applyTcLine1_surname lines d
  · rfl

theorem applyTcFallback_rawText (t : List Char) (lines : List (List Char)) (d : OCRResults) :
    (applyTcFallback t lines d).rawText = d.rawText := by
  unfold applyTcFallback
  split
  · cases findRun11 t with
    | some r => rfl
    | none => exact applyTcLine1_rawText lines d
  · rfl

theorem applyTcFallback_tcNo_isSome (t : List Char) (lines : List (List Char))
    (d : OCRResults) (h : d.tcNo.isSome = true) :
    (applyTcFallback t lines d).tcNo.isSome = true := by
  rcases applyTcFallback_tcNo t lines d with h1 | ⟨v, hv, _, _⟩
  · rw [h1]; exact h
  · rw [hv]; rfl

theorem extractStructured_rawText (f : MRZFields) (d : OCRResults) :
    (extractStructured f d).rawText = d.rawText := by
  unfold extractStructured
  cases (tcCandidate f.personalNumber).orElse
      (fun _ => (tcCandidate f.optionalData).orElse
        (fun _ => tcCandidate f.documentNumber)) with
  | none => dsimp only; split <;> split <;> rfl
  | some v => dsimp only; split <;> split <;> rfl

theorem structStep_rawText (ofields : Option MRZFields) (t : List Char) :
    (structStep ofields t).rawText = t := by
  cases ofields with
  | none => rfl
  | some f => exact extractStructured_rawText f (initialResults t)

theorem catchResult_rawText (t : List Char) : (catchResult t).rawText = t := by
  unfold catchResult
  cases findRun11 t <;> rfl

theorem parseOCRText_rawText (p : MRZParseFn) (t : List Char) :
    (parseOCRText p t).rawText = t := by
  unfold parseOCRText
  split
  · cases p (mrzNormalizedLines t) with
    | err => exact catchResult_rawText t
    | ok ofields =>
      rw [applyTcFallback_rawText, applyHeuristic_rawText]
      exact structStep_rawText ofields t
  · rfl

/--
C4: `parseOCRText` never raises for any input string: for every behaviour of
the external structured parser (including throwing) it returns an
`OCRResults` value whose `rawText` equals the input verbatim, each of
`name`, `surname`, `tcNo` is an optional string, and no later step clears a
field that an earlier step set: the heuristic fallback keeps `name` and
`surname` defined once defined and never touches `tcNo`, and the digit-scan
fallback keeps `tcNo` defined once defined and never touches `name` or
`surname`.
-/
theorem C4_never_raises_monotone (p : MRZParseFn) (t : List Char)
    (lines : List (List Char)) (d : OCRResults) :
    (parseOCRText p t).rawText = t ∧
    (d.name.isSome = true → (applyHeuristic lines d).name.isSome = true) ∧
    (d.surname.isSome = true → (applyHeuristic lines d).surname.isSome = true) ∧
    (applyHeuristic lines d).tcNo = d.tcNo ∧
    (d.tcNo.isSome = true → (applyTcFallback t lines d).tcNo.isSome = true) ∧
    (applyTcFallback t lines d).name = d.name ∧
    (applyTcFallback t lines d).surname = d.surname :=
  ⟨parseOCRText_rawText p t,
   applyHeuristic_name_isSome lines d,
   applyHeuristic_surname_isSome lines d,
   applyHeuristic_tcNo lines d,
   applyTcFallback_tcNo_isSome t lines d,
   applyTcFallback_name t lines d,
   applyTcFallback_surname t lines d⟩

/--
Concrete instance of C4 on a populated record: the fallback steps keep
already-set fields defined, and `rawText` survives a throwing parse.
-/
theorem C4_never_raises_monotone_witness :
    (parseOCRText throwingParse exThrowText).rawText = exThrowText ∧
    (applyHeuristic (mrzNormalizedLines exThrowText)
      (OCRResults.mk (some (("AHMET").data)) (some (("OZTURK").data))
        (some (("12345678901").data)) exThrowText)).name.isSome = true :=
  ⟨(C4_never_raises_monotone throwingParse exThrowText [] (initialResults exThrowText)).1,
   (C4_never_raises_monotone throwingParse exThrowText (mrzNormalizedLines exThrowText)
      (OCRResults.mk (some (("AHMET").data)) (some (("OZTURK").data))
        (some (("12345678901").data)) exThrowText)).2.1 (by decide)⟩

theorem catchResult_name (t : List Char) : (catchResult t).name = none := by
  unfold catchResult
  cases findRun11 t <;> rfl

theorem catchResult_surname (t : List Char) : (catchResult t).surname = none := by
  unfold catchResult
  cases findRun11 t <;> rfl

/--
C5 counterexample: on a text with 3 normalized candidate lines whose third
line is a TD1 name line, a throwing structured parse yields no surname and
no name, although applying the heuristic line-3 fallback to the same lines
would have produced both — so the fallbacks are not applied after a throw,
contrary to the claim.
-/
theorem C5_heuristic_skipped_counterexample :
    (mrzNormalizedLines exThrowText).length = 3 ∧
    (parseOCRText throwingParse exThrowText).surname = none ∧
    (parseOCRText throwingParse exThrowText).name = none ∧
    (applyHeuristic (mrzNormalizedLines exThrowText)
      (initialResults exThrowText)).surname = some (("OZTURK").data) ∧
    (applyHeuristic (mrzNormalizedLines exThrowText)
      (initialResults exThrowText)).name = some (("AHMET").data) := by
  decide

/--
C5 (amended): If the structured MRZ parser throws on a candidate block of at
least 2 normalized lines, the exception is caught, but control jumps to the
catch handler, which applies only the raw-text digit-scan fallback: the
heuristic line-3 name/surname fallback and the line-1 digit scan are
skipped, and the result has undefined name and surname and the raw-text
digit run (if any) as national ID.
-/
theorem C5_catch_only_digit_scan (p : MRZParseFn) (t : List Char)
    (h2 : 2 ≤ (mrzNormalizedLines t).length)
    (he : p (mrzNormalizedLines t) = MRZOutcome.err) :
    parseOCRText p t = catchResult t ∧
    (parseOCRText p t).name = none ∧
    (parseOCRText p t).surname = none ∧
    (parseOCRText p t).tcNo = findRun11 t := by
  have h1 : parseOCRText p t = catchResult t := by
    unfold parseOCRText
    split
    · rw [he]
    · rename_i hc
      exact absurd h2 (by simpa using hc)
  rw [h1]
  exact ⟨rfl, catchResult_name t, catchResult_surname t, catchResult_tcNo t⟩

/-- Concrete instance of the amended C5 on the three-line fixture. -/
theorem C5_catch_only_digit_scan_witness :
    parseOCRText throwingParse exThrowText = catchResult exThrowText :=
  (C5_catch_only_digit_scan throwingParse exThrowText (by decide) rfl).1

theorem compareFaces_isMatch (d1 d2 : List ℝ) (t : ℝ) :
    (compareFaces d1 d2 t).isMatch = true ↔ euclideanDistance d1 d2 < t := by
  unfold compareFaces
  dsimp only
  exact @decide_eq_true_iff _ (Classical.propDecidable _)

/--
C2: `compareFaces` returns `isMatch = true` exactly when the Euclidean
distance between the two descriptors is strictly less than the threshold
(strict less-than, not less-or-equal); in particular, for descriptors at
distance 0.40, threshold 0.55 yields `isMatch = true` and threshold 0.30
yields `isMatch = false`, and the returned distance is the computed
Euclidean distance.
-/
theorem C2_compareFaces_decision (d1 d2 : List ℝ) (t : ℝ) :
    ((compareFaces d1 d2 t).isMatch = true ↔ euclideanDistance d1 d2 < t) ∧
    (compareFaces d1 d2 t).distance = euclideanDistance d1 d2 ∧
    (euclideanDistance d1 d2 = 2 / 5 →
      (compareFaces d1 d2 (55 / 100)).isMatch = true ∧
      (compareFaces d1 d2 (30 / 100)).isMatch = false) := by
  refine ⟨compareFaces_isMatch d1 d2 t, rfl, fun h => ⟨?_, ?_⟩⟩
  · rw [compareFaces_isMatch, h]
    norm_num
  · have hlt : ¬ euclideanDistance d1 d2 < 30 / 100 := by
      rw [h]; norm_num
    cases hb : (compareFaces d1 d2 (30 / 100)).isMatch with
    | false => rfl
    | true => exact absurd ((compareFaces_isMatch d1 d2 (30 / 100)).mp hb) hlt

theorem euclideanDistance_concrete :
    euclideanDistance [(2 : ℝ) / 5] [0] = 2 / 5 := by
  have h : (([(2 : ℝ) / 5].zip [(0 : ℝ)]).map (fun pr => (pr.1 - pr.2) ^ 2)).sum
      = ((2 : ℝ) / 5) ^ 2 := by
    norm_num [List.zip]
  unfold euclideanDistance
  rw [h]
  exact Real.sqrt_sq (by norm_num)

/-- Concrete instance of C2 at one-dimensional descriptors at distance 0.40. -/
theorem C2_compareFaces_decision_witness :
    (compareFaces [(2 : ℝ) / 5] [0] (55 / 100)).isMatch = true ∧
    (compareFaces [(2 : ℝ) / 5] [0] (30 / 100)).isMatch = false :=
  (C2_compareFaces_decision [(2 : ℝ) / 5] [0] 1).2.2 euclideanDistance_concrete

/--
C9: When face detection fails on either input image, the checked
`compareFaces` pipeline raises an error before any distance is computed and
never returns a `MatchResult` for that cause; the caller treats this error
as terminal for the attempt, resetting the blink session and returning to
the selfie-capture step, not treating it as a non-match.
-/
theorem C9_no_face_terminal (det2 : Option (List ℝ)) (d1 : List ℝ) (t : ℝ)
    (e : CompareError) (n : Nat) :
    compareFacesChecked none det2 t = .error .noFaceInID ∧
    compareFacesChecked (some d1) none t = .error .noFaceInSelfie ∧
    (∀ m : MatchResult, compareFacesChecked none det2 t ≠ .ok m) ∧
    handleComparison n (.error e) =
      ⟨.livenessFront, 0, false, false⟩ := by
  refine ⟨rfl, rfl, fun m h => ?_, rfl⟩
  exact Except.noConfusion h

theorem tick_guard (cfg : LivenessConfig) (s : Session) (f : Frame)
    (h : s.scheduled = false ∨ s.isComparing = true) : tick cfg s f = s := by
  unfold tick
  rcases h with h | h <;> rw [h] <;> simp

theorem frameResult_noface (b : Bool) (t : Nat) :
    frameResult ⟨false, b, t⟩ = (false, false) := rfl

theorem tick_count_iff (cfg : LivenessConfig) (s : Session) (f : Frame)
    (hs : s.scheduled = true) (hc : s.isComparing = false) (hf : f.faceDetected = true) :
    (tick cfg s f).blinkCount = s.blinkCount + 1 ↔
      (f.eyesClosed = false ∧ s.wasBlinking = true ∧
        f.now - s.lastBlinkTime > cfg.debounceMs) := by
  cases hec : f.eyesClosed with
  | true => simp [tick, frameResult, hs, hc, hf, hec]
  | false =>
    cases hwb : s.wasBlinking with
    | false => simp [tick, frameResult, hs, hc, hf, hec, hwb]
    | true =>
      have hbd : (frameResult f).2 = f.eyesClosed := by
        unfold frameResult
        rw [if_pos hf]
      by_cases hd : f.now - s.lastBlinkTime > cfg.debounceMs
      · refine iff_of_true ?_ ⟨rfl, rfl, hd⟩
        unfold tick
        rw [hs, hc]
        simp only [Bool.not_true, Bool.false_or]
        rw [if_neg Bool.false_ne_true, hbd, hec]
        simp only [Bool.not_false, Bool.true_and]
        rw [hwb, if_pos rfl, if_pos (decide_eq_true hd)]
        split <;> rfl
      · refine iff_of_false ?_ (by simp [hd])
        unfold tick
        rw [hs, hc]
        simp only [Bool.not_true, Bool.false_or]
        rw [if_neg Bool.false_ne_true, hbd, hec]
        simp only [Bool.not_false, Bool.true_and]
        rw [hwb, if_pos rfl, if_neg (by simp [hd])]
        simp

/--
C6: A blink is counted only on a reported eyes-closed to eyes-open
transition, and only when the wall-clock time since the last counted blink
strictly exceeds the debounce window; consequently, for a face-detected
frame sequence with two closed-to-open transitions within one debounce
window (at 1100 ms and 1300 ms with the default 400 ms window), exactly one
blink is counted, not two.
-/
theorem C6_blink_debounce (cfg : LivenessConfig) (s : Session) (f : Frame)
    (hs : s.scheduled = true) (hc : s.isComparing = false) (hf : f.faceDetected = true) :
    ((tick cfg s f).blinkCount = s.blinkCount + 1 ↔
      (f.eyesClosed = false ∧ s.wasBlinking = true ∧
        f.now - s.lastBlinkTime > cfg.debounceMs)) ∧
    (runBlink defaultLivenessConfig initSession
      [⟨true, true, 1000⟩, ⟨true, false, 1100⟩,
       ⟨true, true, 1200⟩, ⟨true, false, 1300⟩]).blinkCount = 1 :=
  ⟨tick_count_iff cfg s f hs hc hf, by decide⟩

/-- Concrete instance of the C6 step characterization at a debounce-blocked frame. -/
theorem C6_blink_debounce_witness :
    ((tick defaultLivenessConfig ⟨true, 1000, 1, false, 0, true⟩
        ⟨true, false, 1200⟩).blinkCount = 1 + 1 ↔
      (false = false ∧ true = true ∧ 1200 - 1000 > 400)) ∧
    (runBlink defaultLivenessConfig initSession
      [⟨true, true, 1000⟩, ⟨true, false, 1100⟩,
       ⟨true, true, 1200⟩, ⟨true, false, 1300⟩]).blinkCount = 1 :=
  C6_blink_debounce defaultLivenessConfig ⟨true, 1000, 1, false, 0, true⟩
    ⟨true, false, 1200⟩ rfl rfl rfl

/--
C7 counterexample: no-face frames are not neutral for blink counting — since
a no-face frame reports `blinkDetected = false`, a no-face frame directly
after an eyes-closed frame is treated as the eyes opening and counts a
blink: a single closed frame yields count 0, but closed frame followed by a
no-face frame yields count 1, where the claim requires 0.
-/
theorem C7_noface_counts_counterexample :
    (runBlink defaultLivenessConfig initSession
      [⟨true, true, 1000⟩]).blinkCount = 0 ∧
    (runBlink defaultLivenessConfig initSession
      [⟨true, true, 1000⟩, ⟨false, false, 2000⟩]).blinkCount = 1 := by
  decide

/--
C7 (amended): A no-face frame never resets or decreases `blinkCount`, and a
no-face frame arriving when the previous processed frame reported open eyes
leaves the session entirely unchanged; but a no-face frame directly after an
eyes-closed frame acts as an eyes-open edge and can count a blink, so the
N-transition interleaving property holds only when no no-face frame directly
follows an eyes-closed frame.
-/
theorem C7_noface_neutrality_amended (cfg : LivenessConfig) (s : Session)
    (b : Bool) (t : Nat) :
    (tick cfg s ⟨false, b, t⟩).blinkCount ≥ s.blinkCount ∧
    (s.wasBlinking = false → tick cfg s ⟨false, b, t⟩ = s) := by
  constructor
  · unfold tick
    split
    · exact Nat.le_refl _
    · simp only [frameResult_noface, Bool.not_false, Bool.true_and]
      cases hwb : s.wasBlinking with
      | false =>
        rw [if_neg Bool.false_ne_true]
      | true =>
        rw [if_pos rfl]
        split
        · split
          · exact Nat.le_succ _
          · exact Nat.le_succ _
        · exact Nat.le_refl _
  · intro hwb
    unfold tick
    split
    · rfl
    · simp only [frameResult_noface, Bool.not_false, Bool.true_and]
      rw [hwb, if_neg Bool.false_ne_true]
      cases s
      simp_all

/-- Concrete instance of the amended C7 at an eyes-open state and a no-face frame. -/
theorem C7_noface_neutrality_amended_witness :
    (tick defaultLivenessConfig initSession ⟨false, false, 5000⟩).blinkCount
      ≥ initSession.blinkCount ∧
    tick defaultLivenessConfig initSession ⟨false, false, 5000⟩ = initSession :=
  ⟨(C7_noface_neutrality_amended defaultLivenessConfig initSession false 5000).1,
   (C7_noface_neutrality_amended defaultLivenessConfig initSession false 5000).2 rfl⟩

/--
C8: With required blinks = 2, the three-blink well-spaced sequence triggers
exactly one face-match attempt, initiated immediately after the 2nd counted
blink and not after the 3rd: after the 4 frames that contain the first two
blinks the comparison count is 1, the in-flight guard is set, the scheduled
detection tick is cancelled, and every further frame (including the 3rd
blink) leaves the session unchanged.
-/
theorem C8_trigger_after_second_blink :
    (runBlink defaultLivenessConfig initSession (exBlinkFrames.take 4)).comparisons = 1 ∧
    (runBlink defaultLivenessConfig initSession (exBlinkFrames.take 4)).blinkCount = 2 ∧
    (runBlink defaultLivenessConfig initSession (exBlinkFrames.take 4)).isComparing = true ∧
    (runBlink defaultLivenessConfig initSession (exBlinkFrames.take 4)).scheduled = false ∧
    runBlink defaultLivenessConfig initSession exBlinkFrames =
      runBlink defaultLivenessConfig initSession (exBlinkFrames.take 4) ∧
    ∀ f : Frame, tick defaultLivenessConfig
        (runBlink defaultLivenessConfig initSession (exBlinkFrames.take 4)) f =
      runBlink defaultLivenessConfig initSession (exBlinkFrames.take 4) := by
  refine ⟨by decide, by decide, by decide, by decide, by decide, fun f => ?_⟩
  exact tick_guard defaultLivenessConfig _ f (Or.inr (by decide))

/--
C10 (implicit): the last-blink timestamp starts at 0, so the first reported
eyes-closed to eyes-open transition after session start is counted whenever
the wall-clock timestamp itself exceeds the debounce window — which
`Date.now()` always does in practice.
-/
theorem C10_first_blink_counts (cfg : LivenessConfig) (t1 t2 : Nat)
    (h : t2 > cfg.debounceMs) :
    initSession.lastBlinkTime = 0 ∧
    (runBlink cfg initSession [⟨true, true, t1⟩, ⟨true, false, t2⟩]).blinkCount = 1 := by
  refine ⟨rfl, ?_⟩
  have h1 : tick cfg initSession ⟨true, true, t1⟩ = ⟨true, 0, 0, false, 0, true⟩ := rfl
  show (tick cfg (tick cfg initSession ⟨true, true, t1⟩) ⟨true, false, t2⟩).blinkCount = 1
  rw [h1]
  unfold tick frameResult
  simp only [Bool.not_true, Bool.false_or, Bool.not_false, Bool.true_and, if_true,
    Nat.sub_zero, decide_eq_true h, if_false]
  split
  · rename_i hg
    exact Bool.noConfusion hg
  · split <;> rfl

/-- Concrete instance of C10 at a realistic wall-clock timestamp. -/
theorem C10_first_blink_counts_witness :
    (runBlink defaultLivenessConfig initSession
      [⟨true, true, 1736899200000⟩, ⟨true, false, 1736899200150⟩]).blinkCount = 1 :=
  (C10_first_blink_counts defaultLivenessConfig 1736899200000 1736899200150
    (by decide)).2

end KYC
